import Mathlib

/-!
Shallow embedding of the translatron backend core: the translations /
favorites store, the mock translator, and the five handler operations
(createTranslation, getTranslationById, getTranslationHistory,
createFavorite, deleteFavorite, getFavorites), translated from
src/server/src/handlers and src/unnamed.

The database is modelled as in-memory lists kept in insertion order.
Timestamps are naturals.  The TypeScript optional-nullable `user_id`
(undefined | null | string) is modelled as Option (Option String):
none = absent/undefined, some none = explicit null,
some (some u) = a concrete string.  JavaScript truthiness of such a
value (used by the handlers) is true exactly for a non-empty string.
-/

namespace Translatron

/-- The two-value language enumeration from the schema ({"zh","en"}). -/
inductive Lang where
  | zh
  | en
deriving DecidableEq, Repr

/-- A row of the translations table (db/schema.ts translationsTable). -/
structure Translation where
  id : Nat
  source_text : String
  translated_text : String
  source_language : Lang
  target_language : Lang
  user_id : Option String
  created_at : Nat
deriving DecidableEq, Repr

/-- A row of the favorite_translations table (favoriteTranslationsTable).
`user_id` is NOT NULL in the schema, hence a plain String here. -/
structure FavoriteMarker where
  id : Nat
  translation_id : Nat
  user_id : String
  created_at : Nat
deriving DecidableEq, Repr

/-- The TranslationWithFavorite view returned by history/favorites queries. -/
structure TranslationWithFavorite where
  id : Nat
  source_text : String
  translated_text : String
  source_language : Lang
  target_language : Lang
  user_id : Option String
  created_at : Nat
  is_favorite : Bool
deriving DecidableEq, Repr

/-- The persistent store: both tables in insertion order, plus the serial
counters that assign fresh primary keys. -/
structure Store where
  translations : List Translation
  favorites : List FavoriteMarker
  nextTransId : Nat
  nextFavId : Nat
deriving DecidableEq, Repr

/-- JavaScript truthiness of an optional-nullable string parameter:
true exactly for a non-empty concrete string. -/
def jsTruthy : Option (Option String) → Bool
  | some (some u) => !(u == "")
  | _ => false

/-- JavaScript truthiness of an optional string parameter. -/
def strTruthy : Option String → Bool
  | some u => !(u == "")
  | none => false

/-! ### Mock translator (getMockTranslation in the createTranslation file) -/

/-- The English-to-Chinese phrase dictionary (lowercase keys). -/
def enToZhDict : List (String × String) :=
  [("hello", "你好"),
   ("goodbye", "再见"),
   ("thank you", "谢谢"),
   ("how are you", "你好吗"),
   ("good morning", "早上好")]

/-- The Chinese-to-English phrase dictionary. -/
def zhToEnDict : List (String × String) :=
  [("你好", "hello"),
   ("再见", "goodbye"),
   ("谢谢", "thank you"),
   ("你好吗", "how are you"),
   ("早上好", "good morning")]

/-- Name of a language as the string literal the handlers compare against. -/
def Lang.str : Lang → String
  | .zh => "zh"
  | .en => "en"

/-- `sourceText.toLowerCase()`: lowercase every character. -/
def jsToLower (s : String) : String :=
  ⟨s.data.map Char.toLower⟩

/-- getMockTranslation: dictionary lookup with a string-concatenation
fallback.  `translations[key] || fallback` in JavaScript falls through to
the fallback when the looked-up value is missing or an empty string. -/
def getMockTranslation (sourceText : String) (sourceLanguage targetLanguage : Lang) : String :=
  if sourceLanguage = .en ∧ targetLanguage = .zh then
    let lowerText := jsToLower sourceText
    match enToZhDict.lookup lowerText with
    | some v => if v = "" then sourceText ++ "的中文翻译" else v
    | none => sourceText ++ "的中文翻译"
  else if sourceLanguage = .zh ∧ targetLanguage = .en then
    match zhToEnDict.lookup sourceText with
    | some v => if v = "" then "English translation of " ++ sourceText else v
    | none => "English translation of " ++ sourceText
  else
    "Mock translation from " ++ sourceLanguage.str ++ " to " ++ targetLanguage.str ++ ": " ++ sourceText

/-- Input of createTranslation (createTranslationInputSchema). -/
structure CreateTranslationInput where
  source_text : String
  source_language : Lang
  target_language : Lang
  user_id : Option (Option String)
deriving DecidableEq, Repr

/-- `input.user_id ?? null`: undefined and null both become null. -/
def normalizeUser : Option (Option String) → Option String
  | some (some u) => some u
  | _ => none

/-- createTranslation: translate via getMockTranslation and insert one row,
returning the persisted record.  `now` is the database timestamp. -/
def createTranslation (s : Store) (input : CreateTranslationInput) (now : Nat) :
    Store × Translation :=
  let mockTranslatedText :=
    getMockTranslation input.source_text input.source_language input.target_language
  let t : Translation :=
    { id := s.nextTransId
      source_text := input.source_text
      translated_text := mockTranslatedText
      source_language := input.source_language
      target_language := input.target_language
      user_id := normalizeUser input.user_id
      created_at := now }
  ({ s with translations := s.translations ++ [t], nextTransId := s.nextTransId + 1 }, t)

/-! ### getTranslationById (src/unnamed/part_002) -/

/-- getTranslationById: fetch by id, then apply the visibility rule.
`if (userId)` is JavaScript truthiness, so an empty-string userId takes
the anonymous branch. -/
def getTranslationById (s : Store) (id : Nat) (userId : Option String) : Option Translation :=
  match s.translations.find? (fun t => t.id == id) with
  | none => none
  | some t =>
    if strTruthy userId then
      if t.user_id ≠ none ∧ t.user_id ≠ userId then none else some t
    else
      if t.user_id ≠ none then none else some t

/-! ### getTranslationHistory (src/server/src/handlers/get_translation_history.ts) -/

/-- The LEFT JOIN condition of the history query:
`and(eq(fav.translation_id, trans.id),
     input.user_id ? eq(fav.user_id, input.user_id) : isNull(fav.user_id))`.
The ternary tests JavaScript truthiness of `input.user_id`, and
`isNull(fav.user_id)` is identically false because the favorites
`user_id` column is NOT NULL. -/
def joinCond (uid : Option (Option String)) (t : Translation) (f : FavoriteMarker) : Bool :=
  f.translation_id == t.id &&
    (match uid with
     | some (some u) => if u == "" then false else f.user_id == u
     | _ => false)

/-- The rows a single translation contributes to the LEFT JOIN: one row per
matching favorite (carrying the favorite id), or a single row with a null
favorite id when no favorite matches. -/
def rowsFor (s : Store) (uid : Option (Option String)) (t : Translation) :
    List (Translation × Option Nat) :=
  if (s.favorites.filter (joinCond uid t)).isEmpty then [(t, none)]
  else (s.favorites.filter (joinCond uid t)).map (fun f => (t, some f.id))

/-- The base query: translations LEFT JOIN favorites, selecting the
translation columns plus the (nullable) favorite id. -/
def leftJoinRows (s : Store) (uid : Option (Option String)) :
    List (Translation × Option Nat) :=
  s.translations.flatMap (rowsFor s uid)

/-- `input.user_id !== undefined && input.user_id === null`: the owner
filter is applied only for an explicit null. -/
def needsFilter (uid : Option (Option String)) : Bool :=
  uid == some none

/-- The joined rows after the conditional WHERE clause
(`isNull(translations.user_id)` when the filter is needed). -/
def whereRows (s : Store) (uid : Option (Option String)) :
    List (Translation × Option Nat) :=
  if needsFilter uid then
    (leftJoinRows s uid).filter (fun p => p.1.user_id == none)
  else
    leftJoinRows s uid

/-- `ORDER BY translations.created_at DESC` as a relation on joined rows. -/
def histOrd (a b : Translation × Option Nat) : Prop :=
  b.1.created_at ≤ a.1.created_at

instance : DecidableRel histOrd := fun _ _ => Nat.decLe _ _

instance : IsTotal (Translation × Option Nat) histOrd :=
  ⟨fun a b => Nat.le_total b.1.created_at a.1.created_at⟩

instance : IsTrans (Translation × Option Nat) histOrd :=
  ⟨fun _ _ _ hab hbc => Nat.le_trans hbc hab⟩

/-- The ordered (but not yet paginated) history query result. -/
def historyQuery (s : Store) (uid : Option (Option String)) :
    List (Translation × Option Nat) :=
  List.insertionSort histOrd (whereRows s uid)

/-- The final mapping of a joined row:
`is_favorite: result.favorite_id !== null`. -/
def toView (p : Translation × Option Nat) : TranslationWithFavorite :=
  { id := p.1.id
    source_text := p.1.source_text
    translated_text := p.1.translated_text
    source_language := p.1.source_language
    target_language := p.1.target_language
    user_id := p.1.user_id
    created_at := p.1.created_at
    is_favorite := p.2.isSome }

/-- getTranslationHistory: ordered query, OFFSET then LIMIT, then the
per-row mapping. -/
def getTranslationHistory (s : Store) (uid : Option (Option String))
    (limit offset : Nat) : List TranslationWithFavorite :=
  (((historyQuery s uid).drop offset).take limit).map toView

/-- The full unpaginated history result (the same query without
LIMIT/OFFSET), used to state the pagination property. -/
def historyAll (s : Store) (uid : Option (Option String)) :
    List TranslationWithFavorite :=
  (historyQuery s uid).map toView

/-- Concatenation of `n` successive history pages of size `limit`,
starting at a given offset. -/
def historyPages (s : Store) (uid : Option (Option String)) (limit : Nat) :
    Nat → Nat → List TranslationWithFavorite
  | 0, _ => []
  | n + 1, offset =>
      getTranslationHistory s uid limit offset ++
        historyPages s uid limit n (offset + limit)

/-! ### createFavorite (src/unnamed/part_003) -/

/-- The marker row inserted by createFavorite (id from the serial counter,
created_at from the database clock). -/
def newMarker (s : Store) (tid : Nat) (uid : String) (now : Nat) : FavoriteMarker :=
  { id := s.nextFavId, translation_id := tid, user_id := uid, created_at := now }

/-- createFavorite: existence check, then duplicate check, then insert.
The pair returned is (handler outcome, store after the call); on either
error nothing has been written. -/
def createFavorite (s : Store) (tid : Nat) (uid : String) (now : Nat) :
    Except String FavoriteMarker × Store :=
  if (s.translations.filter (fun t => t.id == tid)).length = 0 then
    (.error "Translation not found", s)
  else if (s.favorites.filter
      (fun f => f.translation_id == tid && f.user_id == uid)).length > 0 then
    (.error "Translation is already favorited by this user", s)
  else
    (.ok (newMarker s tid uid now),
     { s with favorites := s.favorites ++ [newMarker s tid uid now],
              nextFavId := s.nextFavId + 1 })

/-! ### deleteFavorite (src/server/src/handlers/delete_favorite.ts) -/

/-- The WHERE clause of the delete: both fields must match exactly. -/
def delMatch (tid : Nat) (uid : String) (f : FavoriteMarker) : Bool :=
  f.translation_id == tid && f.user_id == uid

/-- deleteFavorite: remove every marker matching both fields; the success
flag is `rowCount > 0` where rowCount counts the deleted rows. -/
def deleteFavorite (s : Store) (tid : Nat) (uid : String) : Store × Bool :=
  ({ s with favorites := s.favorites.filter (fun f => !(delMatch tid uid f)) },
   decide (0 < s.favorites.countP (delMatch tid uid)))

/-! ### getFavorites (src/server/src/handlers/get_favorites.ts) -/

/-- favorites INNER JOIN translations ON fav.translation_id = trans.id. -/
def favJoin (s : Store) : List (FavoriteMarker × Translation) :=
  s.favorites.flatMap (fun f =>
    (s.translations.filter (fun t => f.translation_id == t.id)).map (fun t => (f, t)))

/-- `ORDER BY favorites.created_at DESC` as a relation on joined pairs. -/
def favOrd (a b : FavoriteMarker × Translation) : Prop :=
  b.1.created_at ≤ a.1.created_at

instance : DecidableRel favOrd := fun _ _ => Nat.decLe _ _

instance : IsTotal (FavoriteMarker × Translation) favOrd :=
  ⟨fun a b => Nat.le_total b.1.created_at a.1.created_at⟩

instance : IsTrans (FavoriteMarker × Translation) favOrd :=
  ⟨fun _ _ _ hab hbc => Nat.le_trans hbc hab⟩

/-- The ordered (unpaginated) favorites query: join, WHERE on the
requesting user, ORDER BY the favorite timestamp descending. -/
def favSorted (s : Store) (uid : String) : List (FavoriteMarker × Translation) :=
  List.insertionSort favOrd ((favJoin s).filter (fun p => p.1.user_id == uid))

/-- The mapping of a joined pair: the translation columns with
`is_favorite: true` always. -/
def favView (t : Translation) : TranslationWithFavorite :=
  { id := t.id
    source_text := t.source_text
    translated_text := t.translated_text
    source_language := t.source_language
    target_language := t.target_language
    user_id := t.user_id
    created_at := t.created_at
    is_favorite := true }

/-- getFavorites: ordered query, OFFSET then LIMIT, then the mapping. -/
def getFavorites (s : Store) (uid : String) (limit offset : Nat) :
    List TranslationWithFavorite :=
  (((favSorted s uid).drop offset).take limit).map (fun p => favView p.2)

/-! ### Concrete fixtures used by witnesses and counterexamples -/

/-- A translation owned by "bob". -/
def tBob : Translation :=
  { id := 1, source_text := "hi", translated_text := "hi的中文翻译",
    source_language := .en, target_language := .zh,
    user_id := some "bob", created_at := 5 }

/-- A store holding only bob's translation. -/
def sA : Store :=
  { translations := [tBob], favorites := [], nextTransId := 2, nextFavId := 1 }

/-- A public (ownerless) translation. -/
def tPub : Translation :=
  { id := 1, source_text := "hi", translated_text := "x",
    source_language := .en, target_language := .zh,
    user_id := none, created_at := 5 }

/-- A favorite marker whose user id is the empty string. -/
def mEmpty : FavoriteMarker :=
  { id := 1, translation_id := 1, user_id := "", created_at := 3 }

/-- A store with a public translation favorited by the empty-string user. -/
def sB : Store :=
  { translations := [tPub], favorites := [mEmpty], nextTransId := 2, nextFavId := 2 }

/-- A translation whose stored owner is the empty string. -/
def tEmptyOwner : Translation :=
  { id := 1, source_text := "hi", translated_text := "x",
    source_language := .en, target_language := .zh,
    user_id := some "", created_at := 5 }

/-- A store holding only the empty-string-owned translation. -/
def sC : Store :=
  { translations := [tEmptyOwner], favorites := [], nextTransId := 2, nextFavId := 1 }

/-- A store holding only the public translation. -/
def sPub : Store :=
  { translations := [tPub], favorites := [], nextTransId := 2, nextFavId := 1 }

/-- User u's older favorite marker, on translation 1. -/
def m1 : FavoriteMarker :=
  { id := 1, translation_id := 1, user_id := "u", created_at := 3 }

/-- User u's newer favorite marker, on translation 2. -/
def m2 : FavoriteMarker :=
  { id := 2, translation_id := 2, user_id := "u", created_at := 9 }

/-- An old public translation with a new timestamp. -/
def t1 : Translation :=
  { id := 1, source_text := "a", translated_text := "b",
    source_language := .en, target_language := .zh,
    user_id := none, created_at := 100 }

/-- A public translation with an old timestamp. -/
def t2 : Translation :=
  { id := 2, source_text := "c", translated_text := "d",
    source_language := .en, target_language := .zh,
    user_id := none, created_at := 1 }

/-- A store with two translations, both favorited by user u. -/
def sD : Store :=
  { translations := [t1, t2], favorites := [m1, m2], nextTransId := 3, nextFavId := 3 }

/-- The empty store. -/
def emptyStore : Store :=
  { translations := [], favorites := [], nextTransId := 1, nextFavId := 1 }

/-- A createTranslation input hitting the en-to-zh dictionary. -/
def exInput : CreateTranslationInput :=
  { source_text := "Hello", source_language := .en, target_language := .zh,
    user_id := none }

/-! ### Helper lemmas -/

/-- A value produced by an association-list lookup is one of the list's
values. -/
theorem lookup_val_mem {α β : Type} [BEq α] {l : List (α × β)} {k : α} {v : β}
    (h : l.lookup k = some v) : v ∈ l.map Prod.snd := by
  induction l with
  | nil => simp [List.lookup] at h
  | cons p t ih =>
    obtain ⟨ka, vb⟩ := p
    rw [List.lookup] at h
    split at h
    · cases h
      simp
    · exact List.mem_cons_of_mem _ (ih h)

/-- Every value of the en-to-zh dictionary is a non-empty string. -/
theorem enToZh_val_ne_empty {k v : String} (h : enToZhDict.lookup k = some v) :
    v ≠ "" := by
  have hv := lookup_val_mem h
  simp only [enToZhDict, List.map, List.mem_cons, List.not_mem_nil, or_false] at hv
  rcases hv with rfl | rfl | rfl | rfl | rfl <;> decide

/-- Every value of the zh-to-en dictionary is a non-empty string. -/
theorem zhToEn_val_ne_empty {k v : String} (h : zhToEnDict.lookup k = some v) :
    v ≠ "" := by
  have hv := lookup_val_mem h
  simp only [zhToEnDict, List.map, List.mem_cons, List.not_mem_nil, or_false] at hv
  rcases hv with rfl | rfl | rfl | rfl | rfl <;> decide

/-! ### Claim theorems -/

/-- C4: for every valid createTranslation input (non-empty source text,
distinct languages), the stored record's translated_text is the exact
dictionary translation when the source text hits the dictionary for the
language pair (after lowercasing for en, exactly for zh), and otherwise a
deterministic fallback string containing the original source text. -/
theorem createTranslation_mock_dictionary (s : Store) (input : CreateTranslationInput)
    (now : Nat) (_hne : input.source_text ≠ "")
    (_hdiff : input.source_language ≠ input.target_language) :
    ((createTranslation s input now).1.translations
        = s.translations ++ [(createTranslation s input now).2])
    ∧ (input.source_language = .en → input.target_language = .zh →
        ∀ v, enToZhDict.lookup (jsToLower input.source_text) = some v →
          (createTranslation s input now).2.translated_text = v)
    ∧ (input.source_language = .en → input.target_language = .zh →
        enToZhDict.lookup (jsToLower input.source_text) = none →
          ∃ p q, (createTranslation s input now).2.translated_text
            = p ++ input.source_text ++ q)
    ∧ (input.source_language = .zh → input.target_language = .en →
        ∀ v, zhToEnDict.lookup input.source_text = some v →
          (createTranslation s input now).2.translated_text = v)
    ∧ (input.source_language = .zh → input.target_language = .en →
        zhToEnDict.lookup input.source_text = none →
          ∃ p q, (createTranslation s input now).2.translated_text
            = p ++ input.source_text ++ q) := by
  refine ⟨rfl, ?_, ?_, ?_, ?_⟩
  · intro h1 h2 v hv
    show getMockTranslation input.source_text input.source_language input.target_language = v
    rw [h1, h2, getMockTranslation, if_pos ⟨rfl, rfl⟩]
    simp only [hv]
    exact if_neg (enToZh_val_ne_empty hv)
  · intro h1 h2 hv
    refine ⟨"", "的中文翻译", ?_⟩
    show getMockTranslation input.source_text input.source_language input.target_language = _
    rw [h1, h2, getMockTranslation, if_pos ⟨rfl, rfl⟩]
    simp only [hv]
    simp
  · intro h1 h2 v hv
    show getMockTranslation input.source_text input.source_language input.target_language = v
    rw [h1, h2, getMockTranslation, if_neg (by simp), if_pos ⟨rfl, rfl⟩]
    simp only [hv]
    exact if_neg (zhToEn_val_ne_empty hv)
  · intro h1 h2 hv
    refine ⟨"English translation of ", "", ?_⟩
    show getMockTranslation input.source_text input.source_language input.target_language = _
    rw [h1, h2, getMockTranslation, if_neg (by simp), if_pos ⟨rfl, rfl⟩]
    simp only [hv]
    simp

/-- Witness for C4 at concrete inputs: a dictionary hit ("Hello" to
Chinese) produces the exact dictionary value. -/
theorem createTranslation_mock_dictionary_witness :
    (createTranslation emptyStore exInput 0).2.translated_text = "你好" :=
  (createTranslation_mock_dictionary emptyStore exInput 0 (by decide)
      (by decide)).2.1 rfl rfl "你好" (by decide)

/-- C5: createFavorite fails with "Translation not found" when the
translation is missing (regardless of existing markers, so the existence
check precedes the duplicate check), fails with the already-favorited
error when a marker for the pair exists, and otherwise inserts exactly
one new marker for the pair and returns it; on both errors the store is
unchanged. -/
theorem createFavorite_checks (s : Store) (tid : Nat) (uid : String) (now : Nat) :
    ((∀ t ∈ s.translations, t.id ≠ tid) →
      createFavorite s tid uid now = (.error "Translation not found", s))
    ∧ ((∃ t ∈ s.translations, t.id = tid) →
       (∃ f ∈ s.favorites, f.translation_id = tid ∧ f.user_id = uid) →
        createFavorite s tid uid now
          = (.error "Translation is already favorited by this user", s))
    ∧ ((∃ t ∈ s.translations, t.id = tid) →
       (∀ f ∈ s.favorites, ¬(f.translation_id = tid ∧ f.user_id = uid)) →
        createFavorite s tid uid now
          = (.ok (newMarker s tid uid now),
             { s with favorites := s.favorites ++ [newMarker s tid uid now],
                      nextFavId := s.nextFavId + 1 })) := by
  refine ⟨?_, ?_, ?_⟩
  · intro h
    rw [createFavorite, if_pos]
    rw [List.length_eq_zero]
    exact List.filter_eq_nil_iff.mpr (fun t ht => by simpa using h t ht)
  · rintro ⟨t, ht, htid⟩ ⟨f, hf, hft, hfu⟩
    rw [createFavorite, if_neg, if_pos]
    · exact List.length_pos.mpr
        (List.ne_nil_of_mem (List.mem_filter.mpr ⟨hf, by simp [hft, hfu]⟩))
    · have : 0 < (s.translations.filter (fun x => x.id == tid)).length :=
        List.length_pos.mpr
          (List.ne_nil_of_mem (List.mem_filter.mpr ⟨ht, by simp [htid]⟩))
      omega
  · rintro ⟨t, ht, htid⟩ h
    rw [createFavorite, if_neg, if_neg]
    · have : (s.favorites.filter
          (fun f => f.translation_id == tid && f.user_id == uid)) = [] :=
        List.filter_eq_nil_iff.mpr (fun f hf => by simpa using h f hf)
      simp [this]
    · have : 0 < (s.translations.filter (fun x => x.id == tid)).length :=
        List.length_pos.mpr
          (List.ne_nil_of_mem (List.mem_filter.mpr ⟨ht, by simp [htid]⟩))
      omega

/-- Witness for C5 at concrete inputs: all three branches observed on the
two-translation store. -/
theorem createFavorite_checks_witness :
    createFavorite sD 99 "u" 7 = (.error "Translation not found", sD)
    ∧ createFavorite sD 1 "u" 7
        = (.error "Translation is already favorited by this user", sD)
    ∧ createFavorite sD 1 "w" 7
        = (.ok (newMarker sD 1 "w" 7),
           { sD with favorites := sD.favorites ++ [newMarker sD 1 "w" 7],
                     nextFavId := sD.nextFavId + 1 }) :=
  ⟨(createFavorite_checks sD 99 "u" 7).1 (by decide),
   (createFavorite_checks sD 1 "u" 7).2.1 ⟨t1, by decide, rfl⟩ ⟨m1, by decide, rfl, rfl⟩,
   (createFavorite_checks sD 1 "w" 7).2.2 ⟨t1, by decide, rfl⟩ (by decide)⟩

/-- C6: deleteFavorite returns success = true iff a marker matching both
translation_id and user_id existed; afterwards no matching marker
remains; and when no marker matched, the store is returned unchanged
(no error is possible: the operation is total). -/
theorem deleteFavorite_success_iff (s : Store) (tid : Nat) (uid : String) :
    ((deleteFavorite s tid uid).2 = true ↔
      ∃ f ∈ s.favorites, f.translation_id = tid ∧ f.user_id = uid)
    ∧ (∀ f ∈ (deleteFavorite s tid uid).1.favorites,
        ¬(f.translation_id = tid ∧ f.user_id = uid))
    ∧ ((deleteFavorite s tid uid).2 = false → (deleteFavorite s tid uid).1 = s) := by
  refine ⟨?_, ?_, ?_⟩
  · rw [show (deleteFavorite s tid uid).2
        = decide (0 < s.favorites.countP (delMatch tid uid)) from rfl]
    rw [decide_eq_true_eq, List.countP_pos_iff]
    constructor
    · rintro ⟨f, hf, hd⟩
      exact ⟨f, hf, by simpa [delMatch] using hd⟩
    · rintro ⟨f, hf, h1, h2⟩
      exact ⟨f, hf, by simp [delMatch, h1, h2]⟩
  · intro f hf
    rintro ⟨h1, h2⟩
    have := (List.mem_filter.mp hf).2
    simp [delMatch, h1, h2] at this
  · intro h
    have hc : s.favorites.countP (delMatch tid uid) = 0 := by
      have := of_decide_eq_false h
      omega
    have hall := List.countP_eq_zero.mp hc
    show ({ s with favorites := s.favorites.filter (fun f => !(delMatch tid uid f)) }
        : Store) = s
    have hfil : s.favorites.filter (fun f => !(delMatch tid uid f)) = s.favorites :=
      List.filter_eq_self.mpr (fun f hf => by simp [hall f hf])
    rw [hfil]

/-- Witness for C6 at concrete inputs: deleting an existing favorite
reports true and removes it; deleting a non-existent one reports false
and leaves the store unchanged. -/
theorem deleteFavorite_success_iff_witness :
    (deleteFavorite sD 1 "u").2 = true
    ∧ ¬(m2.translation_id = 1 ∧ m2.user_id = "u")
    ∧ (deleteFavorite sD 5 "u").1 = sD :=
  ⟨(deleteFavorite_success_iff sD 1 "u").1.mpr ⟨m1, by decide, rfl, rfl⟩,
   (deleteFavorite_success_iff sD 1 "u").2.1 m2 (by decide),
   (deleteFavorite_success_iff sD 5 "u").2.2 (by decide)⟩

/-- C7: deleteFavorite never touches the translations table, and every
marker whose translation_id or user_id differs from the arguments keeps
its multiplicity in the favorites table. -/
theorem deleteFavorite_frame (s : Store) (tid : Nat) (uid : String) :
    (deleteFavorite s tid uid).1.translations = s.translations
    ∧ ∀ f : FavoriteMarker, (f.translation_id ≠ tid ∨ f.user_id ≠ uid) →
        (deleteFavorite s tid uid).1.favorites.count f = s.favorites.count f := by
  refine ⟨rfl, ?_⟩
  intro f hf
  apply List.count_filter
  rcases hf with h | h <;> simp [delMatch, h]

/-- Witness for C7 at concrete inputs: deleting user u's marker on
translation 1 leaves the marker on translation 2 untouched. -/
theorem deleteFavorite_frame_witness :
    (deleteFavorite sD 1 "u").1.translations = sD.translations
    ∧ (deleteFavorite sD 1 "u").1.favorites.count m2 = sD.favorites.count m2 :=
  ⟨(deleteFavorite_frame sD 1 "u").1,
   (deleteFavorite_frame sD 1 "u").2 m2 (Or.inl (by decide))⟩

/-- Unfolding getTranslationById when no row matches the id. -/
theorem getTranslationById_missing {s : Store} {id : Nat}
    (hfind : s.translations.find? (fun x => x.id == id) = none) :
    ∀ userId, getTranslationById s id userId = none := by
  intro userId
  rw [getTranslationById, hfind]

/-- Unfolding getTranslationById when a row matches the id. -/
theorem getTranslationById_found {s : Store} {id : Nat} {t0 : Translation}
    (hfind : s.translations.find? (fun x => x.id == id) = some t0) :
    ∀ userId, getTranslationById s id userId =
      if strTruthy userId then
        if t0.user_id ≠ none ∧ t0.user_id ≠ userId then none else some t0
      else
        if t0.user_id ≠ none then none else some t0 := by
  intro userId
  rw [getTranslationById, hfind]

/-- C2 counterexample: a translation whose stored owner is the empty
string is not returned to a caller passing the empty-string user id,
even though the translation's user_id equals that caller's string
exactly, so the claimed iff fails at this input. -/
theorem getTranslationById_empty_cex :
    sC.translations.find? (fun x => x.id == 1) = some tEmptyOwner
    ∧ tEmptyOwner.user_id = some ""
    ∧ getTranslationById sC 1 (some "") = none :=
  ⟨by decide, by decide, by decide⟩

/-- C2 (amended): for the translation found at an id, getTranslationById
returns it iff it is public (user_id null) or the caller passes a
non-empty string equal to the owner; in every other case, including an
empty-string caller asking for an empty-string owner, the outward result
is none, identical to a missing row. -/
theorem getTranslationById_visibility (s : Store) (t : Translation) (u : Option String)
    (hfind : s.translations.find? (fun x => x.id == t.id) = some t) :
    (getTranslationById s t.id u = some t ↔
      (t.user_id = none ∨ ∃ v, u = some v ∧ v ≠ "" ∧ t.user_id = some v))
    ∧ (getTranslationById s t.id u = some t ∨ getTranslationById s t.id u = none) := by
  rw [getTranslationById_found hfind u]
  rcases hu : t.user_id with _ | owner <;> rcases u with _ | w
  · simp [strTruthy, hu]
  · by_cases hw : w = "" <;> simp [strTruthy, hu, hw]
  · simp [strTruthy, hu]
  · by_cases hw : w = ""
    · simp [strTruthy, hu, hw]
    · by_cases how : owner = w <;> simp [strTruthy, hu, hw, how]

/-- Witness for C2 at concrete inputs: the public translation is
returned to an anonymous caller, and bob's translation is returned to
bob. -/
theorem getTranslationById_visibility_witness :
    (getTranslationById sPub 1 none = some tPub ↔
      (tPub.user_id = none ∨
        ∃ v, (none : Option String) = some v ∧ v ≠ "" ∧ tPub.user_id = some v))
    ∧ (getTranslationById sA 1 (some "bob") = some tBob ↔
      (tBob.user_id = none ∨
        ∃ v, (some "bob" : Option String) = some v ∧ v ≠ "" ∧ tBob.user_id = some v)) :=
  ⟨(getTranslationById_visibility sPub tPub none (by decide)).1,
   (getTranslationById_visibility sA tBob (some "bob") (by decide)).1⟩

/-- C10: getTranslationById treats an empty-string userId exactly like an
absent userId; a caller passing the empty string is shown only ownerless
translations; and a translation stored with the empty-string owner is
returned to no caller at all. -/
theorem getTranslationById_empty_user (s : Store) (id : Nat) (u : Option String) :
    getTranslationById s id (some "") = getTranslationById s id none
    ∧ (∀ t, getTranslationById s id (some "") = some t → t.user_id = none)
    ∧ (∀ t, getTranslationById s id u = some t → t.user_id ≠ some "") := by
  match hfind : s.translations.find? (fun x => x.id == id) with
  | none =>
    rw [getTranslationById_missing hfind (some ""), getTranslationById_missing hfind none]
    refine ⟨rfl, ?_, ?_⟩
    · intro t h
      cases h
    · intro t h
      rw [getTranslationById_missing hfind u] at h
      cases h
  | some t0 =>
    rw [getTranslationById_found hfind (some ""), getTranslationById_found hfind none]
    refine ⟨by simp [strTruthy], ?_, ?_⟩
    · intro t h
      rcases hu : t0.user_id with _ | owner
      · simp [strTruthy, hu] at h
        rw [← h]
        exact hu
      · simp [strTruthy, hu] at h
    · intro t h
      rw [getTranslationById_found hfind u] at h
      rcases hu : t0.user_id with _ | owner
      · rcases u with _ | w
        · simp [strTruthy, hu] at h
          rw [← h, hu]
          simp
        · by_cases hw : w = "" <;>
            [skip; skip] <;>
            simp [strTruthy, hu, hw] at h <;>
            rw [← h, hu] <;> simp
      · rcases u with _ | w
        · simp [strTruthy, hu] at h
        · by_cases hw : w = ""
          · simp [strTruthy, hu, hw] at h
          · by_cases how : owner = w
            · simp [strTruthy, hu, hw, how] at h
              rw [← h, hu, how]
              simp [hw]
            · simp [strTruthy, hu, hw, how] at h

/-- Witness for C10 at concrete inputs: on the store holding one public
translation, the empty-string caller gets the same answer as the absent
caller, and the returned record is ownerless. -/
theorem getTranslationById_empty_user_witness :
    getTranslationById sPub 1 (some "") = getTranslationById sPub 1 none
    ∧ tPub.user_id = none
    ∧ tPub.user_id ≠ some "" :=
  ⟨(getTranslationById_empty_user sPub 1 none).1,
   (getTranslationById_empty_user sPub 1 none).2.1 tPub (by decide),
   (getTranslationById_empty_user sPub 1 (some "bob")).2.2 tPub (by decide)⟩

/-! ### History query plumbing -/

/-- When the requesting user parameter is falsy (absent, null, or the
empty string) the LEFT JOIN condition holds for no favorite row. -/
theorem joinCond_eq_false {uid : Option (Option String)} (h : jsTruthy uid = false)
    (t : Translation) (f : FavoriteMarker) : joinCond uid t f = false := by
  rcases uid with _ | iu
  · simp [joinCond]
  · rcases iu with _ | u
    · simp [joinCond]
    · have hu : (u == "") = true := by simpa [jsTruthy] using h
      simp [joinCond, hu]

/-- For a non-empty requesting user the LEFT JOIN condition is exact
equality on translation id and favorite owner. -/
theorem joinCond_string {u : String} (hu : u ≠ "") (t : Translation) (f : FavoriteMarker) :
    joinCond (some (some u)) t f = true ↔ f.translation_id = t.id ∧ f.user_id = u := by
  simp [joinCond, hu]

/-- Every row contributed by a translation carries that translation, and
its favorite id is non-null exactly when some favorite row satisfies the
join condition. -/
theorem mem_rowsFor {s : Store} {uid : Option (Option String)} {t : Translation}
    {p : Translation × Option Nat} (hp : p ∈ rowsFor s uid t) :
    p.1 = t ∧ (p.2.isSome = true ↔ ∃ f ∈ s.favorites, joinCond uid t f = true) := by
  rw [rowsFor] at hp
  split at hp
  · rename_i hempty
    rw [List.isEmpty_iff] at hempty
    simp only [List.mem_singleton] at hp
    subst hp
    refine ⟨rfl, ?_⟩
    simp only [Option.isSome_none, Bool.false_eq_true, false_iff]
    rintro ⟨f, hf, hc⟩
    have : f ∈ s.favorites.filter (joinCond uid t) := List.mem_filter.mpr ⟨hf, hc⟩
    rw [hempty] at this
    cases this
  · rcases List.mem_map.mp hp with ⟨f, hf, rfl⟩
    refine ⟨rfl, ?_⟩
    simp only [Option.isSome_some, true_iff]
    exact ⟨f, (List.mem_filter.mp hf).1, (List.mem_filter.mp hf).2⟩

/-- A translation always contributes at least one row to the LEFT JOIN. -/
theorem rowsFor_ne_nil (s : Store) (uid : Option (Option String)) (t : Translation) :
    rowsFor s uid t ≠ [] := by
  rw [rowsFor]
  split
  · simp
  · rename_i hempty
    intro hmap
    rw [List.map_eq_nil_iff] at hmap
    rw [Bool.not_eq_true, List.isEmpty_eq_false] at hempty
    exact hempty hmap

/-- Membership in the joined rows. -/
theorem mem_leftJoinRows_iff {s : Store} {uid : Option (Option String)}
    {p : Translation × Option Nat} :
    p ∈ leftJoinRows s uid ↔ ∃ t ∈ s.translations, p ∈ rowsFor s uid t := by
  rw [leftJoinRows]
  exact List.mem_flatMap

/-- Without the null-owner filter the WHERE stage is the identity. -/
theorem whereRows_no_filter {s : Store} {uid : Option (Option String)}
    (h : needsFilter uid = false) : whereRows s uid = leftJoinRows s uid := by
  rw [whereRows, h]
  simp

/-- Rows surviving the WHERE stage come from the join. -/
theorem mem_whereRows_sub {s : Store} {uid : Option (Option String)}
    {p : Translation × Option Nat} (hp : p ∈ whereRows s uid) :
    p ∈ leftJoinRows s uid := by
  rw [whereRows] at hp
  split at hp
  · exact (List.mem_filter.mp hp).1
  · exact hp

/-- Under the explicit-null parameter every surviving row is ownerless. -/
theorem whereRows_null_owner {s : Store} {p : Translation × Option Nat}
    (hp : p ∈ whereRows s (some none)) : p.1.user_id = none := by
  rw [whereRows, if_pos (show needsFilter (some none) = true from rfl)] at hp
  have := (List.mem_filter.mp hp).2
  simpa using this

/-- Sorting is a permutation, so membership is unchanged. -/
theorem mem_historyQuery_iff {s : Store} {uid : Option (Option String)}
    {p : Translation × Option Nat} :
    p ∈ historyQuery s uid ↔ p ∈ whereRows s uid :=
  (List.perm_insertionSort histOrd _).mem_iff

/-- Every record returned by getTranslationHistory is the view of some
row surviving the WHERE stage. -/
theorem mem_history_result {s : Store} {uid : Option (Option String)} {L O : Nat}
    {r : TranslationWithFavorite} (hr : r ∈ getTranslationHistory s uid L O) :
    ∃ p ∈ whereRows s uid, r = toView p := by
  rw [getTranslationHistory] at hr
  rcases List.mem_map.mp hr with ⟨p, hp, rfl⟩
  have h1 : p ∈ (historyQuery s uid).drop O := List.take_subset _ _ hp
  have h2 : p ∈ historyQuery s uid := List.drop_subset _ _ h1
  exact ⟨p, mem_historyQuery_iff.mp h2, rfl⟩

/-- When no owner filter applies and the limit covers the whole result,
every stored translation appears in the first page. -/
theorem history_complete {s : Store} {uid : Option (Option String)}
    (h : needsFilter uid = false) {L : Nat}
    (hL : (historyAll s uid).length ≤ L) {t : Translation} (ht : t ∈ s.translations) :
    ∃ r ∈ getTranslationHistory s uid L 0, r.id = t.id ∧ r.user_id = t.user_id := by
  obtain ⟨p, hp, hp1⟩ : ∃ p ∈ rowsFor s uid t, p.1 = t := by
    obtain ⟨p, hp⟩ := List.exists_mem_of_ne_nil _ (rowsFor_ne_nil s uid t)
    exact ⟨p, hp, (mem_rowsFor hp).1⟩
  have hjoin : p ∈ leftJoinRows s uid := mem_leftJoinRows_iff.mpr ⟨t, ht, hp⟩
  have hw : p ∈ whereRows s uid := by
    rw [whereRows_no_filter h]
    exact hjoin
  have hq : p ∈ historyQuery s uid := mem_historyQuery_iff.mpr hw
  have hlen : (historyQuery s uid).length ≤ L := by
    rw [historyAll, List.length_map] at hL
    exact hL
  refine ⟨toView p, ?_, ?_, ?_⟩
  · rw [getTranslationHistory, List.drop_zero, List.take_of_length_le hlen]
    exact List.mem_map_of_mem _ hq
  · show p.1.id = t.id
    rw [hp1]
  · show p.1.user_id = t.user_id
    rw [hp1]

/-! ### Claims about getTranslationHistory -/

/-- C1 counterexample: with a concrete requesting user string ("alice")
the history still returns a translation owned by a different user
("bob"), so a concrete string does not restrict the result to that
user's own translations. -/
theorem getTranslationHistory_owner_cex :
    tBob.user_id = some "bob"
    ∧ tBob ∈ sA.translations
    ∧ (getTranslationHistory sA (some (some "alice")) 10 0).map (fun r => r.user_id)
        = [some "bob"] :=
  ⟨rfl, by decide, by decide⟩

/-- C1 (amended): an explicit-null requesting user restricts the history
to ownerless translations; an absent requesting user applies no owner
filter; and a concrete string also applies no owner filter (it only
personalizes the favorite flag), so translations of every owner appear. -/
theorem getTranslationHistory_owner_cases (s : Store) (u : String) (L O : Nat) :
    (∀ r ∈ getTranslationHistory s (some none) L O, r.user_id = none)
    ∧ ((historyAll s none).length ≤ L → ∀ t ∈ s.translations,
        ∃ r ∈ getTranslationHistory s none L 0, r.id = t.id ∧ r.user_id = t.user_id)
    ∧ ((historyAll s (some (some u))).length ≤ L → ∀ t ∈ s.translations,
        ∃ r ∈ getTranslationHistory s (some (some u)) L 0,
          r.id = t.id ∧ r.user_id = t.user_id) := by
  refine ⟨?_, ?_, ?_⟩
  · intro r hr
    obtain ⟨p, hp, rfl⟩ := mem_history_result hr
    exact whereRows_null_owner hp
  · intro hL t ht
    exact history_complete (show needsFilter none = false from rfl) hL ht
  · intro hL t ht
    exact history_complete (show needsFilter (some (some u)) = false by simp [needsFilter]) hL ht

/-- Witness for C1 at concrete inputs: the null case on a store with a
public translation, and the absent case reaching bob's translation. -/
theorem getTranslationHistory_owner_cases_witness :
    (toView (tPub, none)).user_id = none
    ∧ (historyAll sA none).length ≤ 10
    ∧ (∃ r ∈ getTranslationHistory sA none 10 0,
        r.id = tBob.id ∧ r.user_id = tBob.user_id) :=
  ⟨(getTranslationHistory_owner_cases sB "x" 10 0).1 (toView (tPub, none)) (by decide),
   by decide,
   (getTranslationHistory_owner_cases sA "x" 10 0).2.1 (by decide) tBob (by decide)⟩

/-- C3 counterexample: the empty string is a concrete string, a favorite
marker exists for translation 1 and the empty-string user, yet the
returned record has is_favorite = false, so the claimed iff fails for
the empty-string requesting user. -/
theorem getTranslationHistory_favorite_cex :
    mEmpty.user_id = ""
    ∧ mEmpty.translation_id = 1
    ∧ mEmpty ∈ sB.favorites
    ∧ (getTranslationHistory sB (some (some "")) 10 0).map
        (fun r => (r.id, r.is_favorite)) = [(1, false)] :=
  ⟨rfl, rfl, by decide, by decide⟩

/-- C3 (amended): when the requesting user parameter is falsy (absent,
explicit null, or the empty string) the favorite flag is false on every
returned record; for a non-empty concrete string it is true exactly when
a favorite marker exists for the record's translation id and that exact
user. -/
theorem getTranslationHistory_favorite_flag (s : Store) (uid : Option (Option String))
    (u : String) (L O : Nat) :
    (jsTruthy uid = false → ∀ r ∈ getTranslationHistory s uid L O, r.is_favorite = false)
    ∧ (u ≠ "" → ∀ r ∈ getTranslationHistory s (some (some u)) L O,
        (r.is_favorite = true ↔
          ∃ f ∈ s.favorites, f.translation_id = r.id ∧ f.user_id = u)) := by
  constructor
  · intro h r hr
    obtain ⟨p, hp, rfl⟩ := mem_history_result hr
    obtain ⟨t, ht, hpt⟩ := mem_leftJoinRows_iff.mp (mem_whereRows_sub hp)
    have hiff := (mem_rowsFor hpt).2
    show p.2.isSome = false
    rw [Bool.eq_false_iff]
    intro habs
    obtain ⟨f, _, hc⟩ := hiff.mp habs
    rw [joinCond_eq_false h t f] at hc
    cases hc
  · intro hu r hr
    obtain ⟨p, hp, rfl⟩ := mem_history_result hr
    obtain ⟨t, ht, hpt⟩ := mem_leftJoinRows_iff.mp (mem_whereRows_sub hp)
    obtain ⟨hp1, hiff⟩ := mem_rowsFor hpt
    show p.2.isSome = true ↔
      ∃ f ∈ s.favorites, f.translation_id = (toView p).id ∧ f.user_id = u
    rw [hiff, show (toView p).id = p.1.id from rfl, hp1]
    constructor
    · rintro ⟨f, hf, hc⟩
      exact ⟨f, hf, (joinCond_string hu t f).mp hc⟩
    · rintro ⟨f, hf, h1, h2⟩
      exact ⟨f, hf, (joinCond_string hu t f).mpr ⟨h1, h2⟩⟩

/-- Witness for C3 at concrete inputs: the empty-string user sees a false
flag, and user u sees a true flag exactly matching their marker. -/
theorem getTranslationHistory_favorite_flag_witness :
    (toView (tPub, none)).is_favorite = false
    ∧ ((toView (t1, some 1)).is_favorite = true ↔
        ∃ f ∈ sD.favorites, f.translation_id = (toView (t1, some 1)).id ∧ f.user_id = "u") :=
  ⟨(getTranslationHistory_favorite_flag sB (some (some "")) "x" 10 0).1 rfl
      (toView (tPub, none)) (by decide),
   (getTranslationHistory_favorite_flag sD none "u" 10 0).2 (by decide)
      (toView (t1, some 1)) (by decide)⟩

/-! ### Pagination helpers -/

/-- Concatenation of n size-L slices of a list, starting at offset o. -/
def pagesAux {α : Type} (l : List α) (L : Nat) : Nat → Nat → List α
  | 0, _ => []
  | n + 1, o => (l.drop o).take L ++ pagesAux l L n (o + L)

/-- Enough size-L slices starting at offset o reconstruct the list from
offset o on, with no duplicate and no gap. -/
theorem pagesAux_eq_drop {α : Type} (l : List α) (L : Nat) :
    ∀ n o, l.length ≤ o + n * L → pagesAux l L n o = l.drop o := by
  intro n
  induction n with
  | zero =>
    intro o h
    rw [pagesAux]
    exact (List.drop_eq_nil_of_le (by simpa using h)).symm
  | succ n ih =>
    intro o h
    rw [pagesAux, ih (o + L) (by rw [Nat.succ_mul] at h; omega)]
    rw [← List.drop_drop L o l]
    exact List.take_append_drop L (l.drop o)

/-- historyPages is pagesAux over the ordered query, mapped to views. -/
theorem historyPages_eq (s : Store) (uid : Option (Option String)) (L : Nat) :
    ∀ n o, historyPages s uid L n o = (pagesAux (historyQuery s uid) L n o).map toView := by
  intro n
  induction n with
  | zero =>
    intro o
    rfl
  | succ n ih =>
    intro o
    rw [historyPages, pagesAux, List.map_append, ← ih (o + L)]
    rfl

/-- C9: every history page is sorted non-increasing by created_at, and
concatenating pages of size L at offsets 0, L, 2L, ... reconstructs the
full unpaginated ordered result with no duplicate and no missing
record, as soon as n pages cover its length. -/
theorem getTranslationHistory_sorted_paginated (s : Store) (uid : Option (Option String))
    (L O n : Nat) :
    List.Pairwise (fun a b : TranslationWithFavorite => b.created_at ≤ a.created_at)
      (getTranslationHistory s uid L O)
    ∧ ((historyAll s uid).length ≤ n * L →
        historyPages s uid L n 0 = historyAll s uid) := by
  constructor
  · have hs : List.Pairwise histOrd (historyQuery s uid) :=
      List.sorted_insertionSort histOrd (whereRows s uid)
    have hsub : (((historyQuery s uid).drop O).take L).Sublist (historyQuery s uid) :=
      (List.take_sublist _ _).trans (List.drop_sublist _ _)
    have hp : List.Pairwise histOrd (((historyQuery s uid).drop O).take L) :=
      hs.sublist hsub
    rw [getTranslationHistory, List.pairwise_map]
    exact hp
  · intro h
    have hlen : (historyQuery s uid).length ≤ 0 + n * L := by
      rw [historyAll, List.length_map] at h
      omega
    rw [historyPages_eq s uid L n 0, pagesAux_eq_drop _ _ n 0 hlen, List.drop_zero]
    rfl

/-- Witness for C9 at concrete inputs: four pages of size one reconstruct
the two-record history of the two-translation store. -/
theorem getTranslationHistory_sorted_paginated_witness :
    (historyAll sD none).length ≤ 4 * 1
    ∧ historyPages sD none 1 4 0 = historyAll sD none :=
  ⟨by decide, (getTranslationHistory_sorted_paginated sD none 1 0 4).2 (by decide)⟩

/-! ### getFavorites claims -/

/-- Membership in the favorites INNER JOIN. -/
theorem mem_favJoin_iff {s : Store} {p : FavoriteMarker × Translation} :
    p ∈ favJoin s ↔
      p.1 ∈ s.favorites ∧ p.2 ∈ s.translations ∧ p.1.translation_id = p.2.id := by
  obtain ⟨f, t⟩ := p
  rw [favJoin, List.mem_flatMap]
  constructor
  · rintro ⟨f0, hf0, hmem⟩
    rcases List.mem_map.mp hmem with ⟨t0, ht0, heq⟩
    cases heq
    have h := List.mem_filter.mp ht0
    exact ⟨hf0, h.1, by simpa using h.2⟩
  · rintro ⟨hf, ht, hid⟩
    exact ⟨f, hf, List.mem_map.mpr ⟨t, List.mem_filter.mpr ⟨ht, by simpa using hid⟩, rfl⟩⟩

/-- Membership in the ordered favorites query. -/
theorem mem_favSorted_iff {s : Store} {uid : String} {p : FavoriteMarker × Translation} :
    p ∈ favSorted s uid ↔ p ∈ favJoin s ∧ p.1.user_id = uid := by
  rw [favSorted, (List.perm_insertionSort favOrd _).mem_iff, List.mem_filter]
  simp

/-- C8: every record returned by getFavorites is flagged is_favorite and
comes from a favorite marker owned by the requested user on an existing
translation (so no cross-user leakage); the ordered query is sorted
non-increasing by the favorite marker's created_at; and with offset 0
and a covering limit, every translation favorited by the user appears. -/
theorem getFavorites_spec (s : Store) (u : String) (L O : Nat) :
    (∀ r ∈ getFavorites s u L O, r.is_favorite = true ∧
      ∃ f ∈ s.favorites, ∃ t ∈ s.translations,
        f.user_id = u ∧ f.translation_id = t.id ∧ r = favView t)
    ∧ List.Pairwise favOrd (favSorted s u)
    ∧ ((favSorted s u).length ≤ L → ∀ f ∈ s.favorites, f.user_id = u →
        ∀ t ∈ s.translations, f.translation_id = t.id →
          favView t ∈ getFavorites s u L 0) := by
  refine ⟨?_, ?_, ?_⟩
  · intro r hr
    rw [getFavorites] at hr
    rcases List.mem_map.mp hr with ⟨p, hp, rfl⟩
    have h1 : p ∈ favSorted s u :=
      List.drop_subset _ _ (List.take_subset _ _ hp)
    obtain ⟨hjoin, huser⟩ := mem_favSorted_iff.mp h1
    obtain ⟨hf, ht, hid⟩ := mem_favJoin_iff.mp hjoin
    exact ⟨rfl, p.1, hf, p.2, ht, huser, hid, rfl⟩
  · exact List.sorted_insertionSort favOrd _
  · intro hL f hf hu t ht hid
    have hmem : (f, t) ∈ favSorted s u :=
      mem_favSorted_iff.mpr ⟨mem_favJoin_iff.mpr ⟨hf, ht, hid⟩, hu⟩
    rw [getFavorites, List.drop_zero, List.take_of_length_le hL]
    exact List.mem_map.mpr ⟨(f, t), hmem, rfl⟩

/-- Witness for C8 at concrete inputs: on the two-translation store both
of user u's favorites are returned, each traced to u's own marker. -/
theorem getFavorites_spec_witness :
    ((favView t2).is_favorite = true ∧
      ∃ f ∈ sD.favorites, ∃ t ∈ sD.translations,
        f.user_id = "u" ∧ f.translation_id = t.id ∧ favView t2 = favView t)
    ∧ favView t1 ∈ getFavorites sD "u" 10 0 :=
  ⟨(getFavorites_spec sD "u" 10 0).1 (favView t2) (by decide),
   (getFavorites_spec sD "u" 10 0).2.2 (by decide) m1 (by decide) rfl t1 (by decide) rfl⟩

end Translatron
